import Mathlib

/-!
Verification of the password strength analyzer engine (`password_analyzer.py`).

Passwords are modelled as `List Char` (a Python 3 `str` is a sequence of
Unicode code points, and `ord` is `Char.toNat`).  Each `_`-prefixed
definition is a direct shallow embedding of the Python method with the same
name on the `PasswordAnalyzer` class.
-/

namespace PasswordAnalyzer

/-- `true → 1, false → 0`; Python `sum` over a list of booleans counts the
true ones, and Python `bool` values behave as these integers. -/
def boolNat (b : Bool) : Nat := if b then 1 else 0

/-- Code points matched by the regex character class `[a-z]`. -/
def isLowerChar (c : Char) : Bool := decide (0x61 ≤ c.toNat ∧ c.toNat ≤ 0x7a)

/-- Code points matched by the regex character class `[A-Z]`. -/
def isUpperChar (c : Char) : Bool := decide (0x41 ≤ c.toNat ∧ c.toNat ≤ 0x5a)

/-- Code points matched by `[0-9]`, the ASCII digits. -/
def isAsciiDigitChar (c : Char) : Bool := decide (0x30 ≤ c.toNat ∧ c.toNat ≤ 0x39)

/-- Non-ASCII decimal-digit ranges (Unicode general category Nd) of the Basic
Multilingual Plane.  Python's `re` module is Unicode-aware by default, so
`\d` against a `str` matches every Nd code point, not only `0-9`.
Supplementary-plane digit ranges exist as well but are not needed here and
are omitted from the model. -/
def ndRanges : List (Nat × Nat) :=
  [(0x660, 0x669), (0x6F0, 0x6F9), (0x7C0, 0x7C9), (0x966, 0x96F),
   (0x9E6, 0x9EF), (0xA66, 0xA6F), (0xAE6, 0xAEF), (0xB66, 0xB6F),
   (0xBE6, 0xBEF), (0xC66, 0xC6F), (0xCE6, 0xCEF), (0xD66, 0xD6F),
   (0xDE6, 0xDEF), (0xE50, 0xE59), (0xED0, 0xED9), (0xF20, 0xF29),
   (0x1040, 0x1049), (0x1090, 0x1099), (0x17E0, 0x17E9), (0x1810, 0x1819),
   (0x1946, 0x194F), (0x19D0, 0x19D9), (0x1A80, 0x1A89), (0x1A90, 0x1A99),
   (0x1B50, 0x1B59), (0x1BB0, 0x1BB9), (0x1C40, 0x1C49), (0x1C50, 0x1C59),
   (0xA620, 0xA629), (0xA8D0, 0xA8D9), (0xA900, 0xA909), (0xA9D0, 0xA9D9),
   (0xA9F0, 0xA9F9), (0xAA50, 0xAA59), (0xABF0, 0xABF9), (0xFF10, 0xFF19)]

/-- A non-ASCII character matched by Python's Unicode-aware `\d`. -/
def isNonAsciiDigitChar (c : Char) : Bool :=
  ndRanges.any (fun r => decide (r.1 ≤ c.toNat ∧ c.toNat ≤ r.2))

/-- Code points matched by the regex `\d` against a Python 3 `str`:
the ASCII digits together with every other Unicode decimal digit. -/
def isDigitChar (c : Char) : Bool := isAsciiDigitChar c || isNonAsciiDigitChar c

/-- Code points matched by `[^a-zA-Z0-9]` (the "special" class): everything
that is not an ASCII letter or ASCII digit, including all non-ASCII
characters. -/
def isSpecialChar (c : Char) : Bool :=
  !(isLowerChar c || isUpperChar c || isAsciiDigitChar c)

/-- The dictionary returned by `_analyze_characters`. -/
structure CharacterAnalysis where
  lowercase : Nat
  uppercase : Nat
  digits : Nat
  special : Nat
  has_lowercase : Bool
  has_uppercase : Bool
  has_digits : Bool
  has_special : Bool
  unique_chars : Nat
deriving DecidableEq

/-- `_analyze_characters`: counts via `re.findall` and presence flags via
`re.search` for each class; `unique_chars` is `len(set(password))`. -/
def _analyze_characters (password : List Char) : CharacterAnalysis :=
  { lowercase := password.countP (fun c => isLowerChar c)
    uppercase := password.countP (fun c => isUpperChar c)
    digits := password.countP (fun c => isDigitChar c)
    special := password.countP (fun c => isSpecialChar c)
    has_lowercase := password.any isLowerChar
    has_uppercase := password.any isUpperChar
    has_digits := password.any isDigitChar
    has_special := password.any isSpecialChar
    unique_chars := password.eraseDups.length }

theorem nd_lower_bound (c : Char) (h : isNonAsciiDigitChar c = true) :
    0x660 ≤ c.toNat := by
  simp [isNonAsciiDigitChar, ndRanges] at h
  omega

/-- Per-character classification count: a character falls in exactly one of
the four classes, except that a non-ASCII decimal digit falls in both the
digit class (Unicode `\d`) and the special class (`[^a-zA-Z0-9]`). -/
theorem char_class_count (c : Char) :
    boolNat (isLowerChar c) + boolNat (isUpperChar c) + boolNat (isDigitChar c)
      + boolNat (isSpecialChar c) = 1 + boolNat (isNonAsciiDigitChar c) := by
  cases hn : isNonAsciiDigitChar c with
  | true =>
      have hb := nd_lower_bound c hn
      have h1 : ¬(0x61 ≤ c.toNat ∧ c.toNat ≤ 0x7a) := by omega
      have h2 : ¬(0x41 ≤ c.toNat ∧ c.toNat ≤ 0x5a) := by omega
      have h3 : ¬(0x30 ≤ c.toNat ∧ c.toNat ≤ 0x39) := by omega
      simp [boolNat, isDigitChar, isSpecialChar, isLowerChar, isUpperChar,
        isAsciiDigitChar, h1, h2, h3, hn]
  | false =>
      by_cases h1 : 0x61 ≤ c.toNat ∧ c.toNat ≤ 0x7a <;>
        by_cases h2 : 0x41 ≤ c.toNat ∧ c.toNat ≤ 0x5a <;>
        by_cases h3 : 0x30 ≤ c.toNat ∧ c.toNat ≤ 0x39 <;>
        simp [boolNat, isDigitChar, isSpecialChar, isLowerChar, isUpperChar,
          isAsciiDigitChar, h1, h2, h3, hn] <;> omega

/-- ASCII lower-casing, applied characterwise; models Python `str.lower` as
used here (all reference data it is compared against is ASCII). -/
def pyLower (c : Char) : Char :=
  if 0x41 ≤ c.toNat ∧ c.toNat ≤ 0x5a then Char.ofNat (c.toNat + 32) else c

/-- Python substring containment `needle in hay` on strings. -/
def isSubstring (needle hay : List Char) : Bool :=
  (List.range (hay.length + 1)).any (fun i => needle.isPrefixOf (hay.drop i))

/-- `_find_repeated_chars`: for every adjacent equal pair record the
character, then `list(set(...))`; the set round-trip is modelled by
`eraseDups` (the Python set iteration order is unspecified). -/
def _find_repeated_chars (password : List Char) : List Char :=
  ((password.zip password.tail).filterMap
    (fun ab => if ab.1 = ab.2 then some ab.1 else none)).eraseDups

/-- `_find_sequential_patterns`: for every index `i` of
`range(len(password) - 2)`, record `password[i:i+3]` when the three
character codes ascend with step exactly 1. -/
def _find_sequential_patterns (password : List Char) : List (List Char) :=
  (List.range (password.length - 2)).filterMap (fun i =>
    match password.drop i with
    | a :: b :: c :: _ =>
        if b.toNat = a.toNat + 1 ∧ c.toNat = a.toNat + 2 then some [a, b, c] else none
    | _ => none)

/-- The four keyboard rows of `_find_keyboard_patterns`. -/
def keyboard_rows : List (List Char) :=
  ["qwertyuiop".toList, "asdfghjkl".toList, "zxcvbnm".toList, "1234567890".toList]

/-- `_find_keyboard_patterns`: every 3-character window of every row whose
lower-cased form is a substring of the lower-cased password. -/
def _find_keyboard_patterns (password : List Char) : List (List Char) :=
  keyboard_rows.flatMap (fun row =>
    (List.range (row.length - 2)).filterMap (fun i =>
      let pat := (row.drop i).take 3
      if isSubstring (pat.map pyLower) (password.map pyLower) then some pat else none))

/-- The leetspeak substitution table, in the source's insertion order. -/
def substitutions : List (Char × Char) :=
  [('@', 'a'), ('3', 'e'), ('1', 'i'), ('0', 'o'), ('5', 's'),
   ('7', 't'), ('4', 'a'), ('8', 'b'), ('!', 'i')]

/-- `_find_common_substitutions`: each table entry whose character occurs in
the password; the annotation string `f"{char} → {replacement}"` is modelled
as the pair of characters. -/
def _find_common_substitutions (password : List Char) : List (Char × Char) :=
  substitutions.filterMap (fun cr => if password.contains cr.1 then some cr else none)

/-- The built-in dictionary word list of `_find_dictionary_words`. -/
def common_words : List (List Char) :=
  ["password".toList, "admin".toList, "user".toList, "login".toList,
   "welcome".toList, "hello".toList, "world".toList, "test".toList,
   "demo".toList, "sample".toList]

/-- `_find_dictionary_words`: words of the list that occur (case-insensitively)
as substrings of the password, in list order. -/
def _find_dictionary_words (password : List Char) : List (List Char) :=
  common_words.filterMap (fun w =>
    if isSubstring (w.map pyLower) (password.map pyLower) then some w else none)

/-- The dictionary returned by `_analyze_patterns`. -/
structure PatternAnalysis where
  repeated_chars : List Char
  sequential : List (List Char)
  keyboard_patterns : List (List Char)
  common_substitutions : List (Char × Char)
  dictionary_words : List (List Char)
deriving DecidableEq

/-- `_analyze_patterns`. -/
def _analyze_patterns (password : List Char) : PatternAnalysis :=
  { repeated_chars := _find_repeated_chars password
    sequential := _find_sequential_patterns password
    keyboard_patterns := _find_keyboard_patterns password
    common_substitutions := _find_common_substitutions password
    dictionary_words := _find_dictionary_words password }

/-- The common-password list of `_load_common_passwords`. -/
def common_passwords : List (List Char) :=
  ["password".toList, "123456".toList, "123456789".toList, "qwerty".toList,
   "abc123".toList, "password123".toList, "admin".toList, "letmein".toList,
   "welcome".toList, "monkey".toList, "dragon".toList, "master".toList,
   "shadow".toList, "superman".toList, "michael".toList, "football".toList,
   "baseball".toList, "liverpool".toList, "jordan".toList, "princess".toList]

/-- The abbreviated month names of `_contains_personal_info`. -/
def monthNames : List (List Char) :=
  ["jan".toList, "feb".toList, "mar".toList, "apr".toList, "may".toList,
   "jun".toList, "jul".toList, "aug".toList, "sep".toList, "oct".toList,
   "nov".toList, "dec".toList]

/-- The weekday names of `_contains_personal_info`. -/
def weekdayNames : List (List Char) :=
  ["monday".toList, "tuesday".toList, "wednesday".toList, "thursday".toList,
   "friday".toList, "saturday".toList, "sunday".toList]

/-- `_contains_personal_info`: the lower-cased password matches `\d{4}`
(four consecutive Unicode digits), an abbreviated month name, or a full
weekday name. -/
def _contains_personal_info (password : List Char) : Bool :=
  let lowered := password.map pyLower
  (List.range (lowered.length - 3)).any (fun i => ((lowered.drop i).take 4).all isDigitChar)
  || monthNames.any (fun m => isSubstring m lowered)
  || weekdayNames.any (fun d => isSubstring d lowered)

/-- `_check_pwned_passwords` (simulated in the source: a lookup in the same
local common-password list, no network call). -/
def _check_pwned_passwords (password : List Char) : Bool :=
  common_passwords.contains (password.map pyLower)

/-- The dictionary returned by `_meets_basic_requirements`. -/
structure Requirements where
  min_length : Bool
  has_uppercase : Bool
  has_lowercase : Bool
  has_digit : Bool
  has_special : Bool
  all_met : Bool
deriving DecidableEq

/-- `_meets_basic_requirements`: length ≥ 8 and presence of all four
character categories; `all_met` is the conjunction of the five checks. -/
def _meets_basic_requirements (password : List Char) : Requirements :=
  { min_length := decide (8 ≤ password.length)
    has_uppercase := password.any isUpperChar
    has_lowercase := password.any isLowerChar
    has_digit := password.any isDigitChar
    has_special := password.any isSpecialChar
    all_met := decide (8 ≤ password.length) && password.any isUpperChar
      && password.any isLowerChar && password.any isDigitChar
      && password.any isSpecialChar }

/-- The dictionary returned by `_security_checks`. -/
structure SecurityChecks where
  is_common : Bool
  contains_personal_info : Bool
  pwned_check : Bool
  meets_basic_requirements : Requirements
deriving DecidableEq

/-- `_security_checks`. -/
def _security_checks (password : List Char) : SecurityChecks :=
  { is_common := common_passwords.contains (password.map pyLower)
    contains_personal_info := _contains_personal_info password
    pwned_check := _check_pwned_passwords password
    meets_basic_requirements := _meets_basic_requirements password }

/-- Round half-to-even on the rationals: the rounding of Python's `round`
(all values it is applied to in the score computation are exact quarters,
so the binary floating-point computation is exact and ties at `.5` are
resolved to the even neighbour). -/
def pyRoundQ (x : ℚ) : ℤ :=
  if x - ⌊x⌋ < 1 / 2 then ⌊x⌋
  else if 1 / 2 < x - ⌊x⌋ then ⌊x⌋ + 1
  else if Even ⌊x⌋ then ⌊x⌋ else ⌊x⌋ + 1

/-- Round half-to-even on the reals, the real-number model of Python's
`round` applied to a float. -/
noncomputable def pyRoundR (x : ℝ) : ℤ :=
  if x - ⌊x⌋ < 1 / 2 then ⌊x⌋
  else if 1 / 2 < x - ⌊x⌋ then ⌊x⌋ + 1
  else if Even ⌊x⌋ then ⌊x⌋ else ⌊x⌋ + 1

/-- Python `round(x, 2)`: the result is an exact multiple of `1/100`,
represented as a rational. -/
noncomputable def round2 (x : ℝ) : ℚ := (pyRoundR (x * 100) : ℚ) / 100

/-- The charset size accumulated by `_calculate_entropy`: a fixed
contribution per character category that is present, regardless of how many
characters of the category occur. -/
def charset_size (password : List Char) : Nat :=
  (if password.any isLowerChar then 26 else 0)
  + (if password.any isUpperChar then 26 else 0)
  + (if password.any isDigitChar then 10 else 0)
  + (if password.any isSpecialChar then 32 else 0)

/-- `_calculate_entropy`: exactly 0 when the charset is empty, otherwise
`round(len(password) * log2(charset_size), 2)`. -/
noncomputable def _calculate_entropy (password : List Char) : ℚ :=
  if charset_size password = 0 then 0
  else round2 ((password.length : ℝ) * Real.logb 2 (charset_size password))

/-- Python `f"{x:.1f}"` for the nonnegative durations arising here. -/
noncomputable def formatFixed1 (x : ℝ) : String :=
  let d := pyRoundR (x * 10)
  toString (d / 10) ++ "." ++ toString (d % 10)

/-- `_format_time`: fixed breakpoints, each numeric value shown with one
decimal place; a year is exactly 31,536,000 seconds. -/
noncomputable def _format_time (seconds : ℝ) : String :=
  if seconds < 1 then "Instant"
  else if seconds < 60 then formatFixed1 seconds ++ " seconds"
  else if seconds < 3600 then formatFixed1 (seconds / 60) ++ " minutes"
  else if seconds < 86400 then formatFixed1 (seconds / 3600) ++ " hours"
  else if seconds < 31536000 then formatFixed1 (seconds / 86400) ++ " days"
  else formatFixed1 (seconds / 31536000) ++ " years"

/-- `_estimate_crack_time`: `2 ** entropy` total combinations at `1e9`
guesses per second, average time half the keyspace. -/
noncomputable def _estimate_crack_time (password : List Char) : String :=
  _format_time ((2 : ℝ) ^ ((_calculate_entropy password : ℚ) : ℝ) / (2 * 10 ^ 9))

/-- The analysis dictionary assembled by `analyze_password`. -/
structure Analysis where
  password : List Char
  length : Nat
  strength_score : ℤ
  strength_level : String
  character_analysis : CharacterAnalysis
  pattern_analysis : PatternAnalysis
  security_checks : SecurityChecks
  entropy : ℚ
  crack_time : String

/-- `_calculate_strength_score`: the additive scoring over the analysis
dictionary, final result `max(0, min(100, round(score)))`. -/
def _calculate_strength_score (analysis : Analysis) : ℤ :=
  let s0 : ℚ := 0
  let s1 := s0 + (if 12 ≤ analysis.length then 25
    else if 8 ≤ analysis.length then 15
    else if 6 ≤ analysis.length then 10
    else if 4 ≤ analysis.length then 5 else 0)
  let char_types : Nat := boolNat analysis.character_analysis.has_lowercase
    + boolNat analysis.character_analysis.has_uppercase
    + boolNat analysis.character_analysis.has_digits
    + boolNat analysis.character_analysis.has_special
  let s2 := s1 + (char_types : ℚ) * 6.25
  let s3 := s2 + (if 60 ≤ analysis.entropy then 20
    else if 40 ≤ analysis.entropy then 15
    else if 25 ≤ analysis.entropy then 10
    else if 15 ≤ analysis.entropy then 5 else 0)
  let s4 := s3 + (if analysis.security_checks.is_common then 0 else 10)
  let s5 := s4 + (if analysis.security_checks.pwned_check then 0 else 10)
  let s6 := s5 + (if analysis.security_checks.meets_basic_requirements.all_met then 10 else 0)
  let s7 := s6 - (if analysis.pattern_analysis.repeated_chars = [] then 0 else 5)
  let s8 := s7 - (if analysis.pattern_analysis.sequential = [] then 0 else 10)
  let s9 := s8 - (if analysis.pattern_analysis.keyboard_patterns = [] then 0 else 10)
  let s10 := s9 - (if analysis.pattern_analysis.dictionary_words = [] then 0 else 15)
  max 0 (min 100 (pyRoundQ s10))

/-- `_get_strength_level`: banding of the final score, inclusive lower
bounds, checked from highest to lowest. -/
def _get_strength_level (score : ℤ) : String :=
  if 80 ≤ score then "Very Strong"
  else if 60 ≤ score then "Strong"
  else if 40 ≤ score then "Moderate"
  else if 20 ≤ score then "Weak"
  else "Very Weak"

/-- `analyze_password`: assemble the analysis dictionary, then fill in the
score and the level derived from it. -/
noncomputable def analyze_password (password : List Char) : Analysis :=
  let base : Analysis :=
    { password := password
      length := password.length
      strength_score := 0
      strength_level := "Very Weak"
      character_analysis := _analyze_characters password
      pattern_analysis := _analyze_patterns password
      security_checks := _security_checks password
      entropy := _calculate_entropy password
      crack_time := _estimate_crack_time password }
  let s := _calculate_strength_score base
  { base with strength_score := s, strength_level := _get_strength_level s }

/-! Spec-side synthesis of the score, following the claim's wording: one
additive formula built from a single highest length band, per-category
diversity points, a single highest entropy band, three independent security
bonuses and four independent penalties. -/

/-- Length band of the claim: the single highest matching band. -/
def lengthPoints (len : Nat) : ℚ :=
  if 12 ≤ len then 25 else if 8 ≤ len then 15
  else if 6 ≤ len then 10 else if 4 ≤ len then 5 else 0

/-- Diversity points of the claim: 6.25 per category boolean that is true. -/
def diversityPoints (ca : CharacterAnalysis) : ℚ :=
  6.25 * ((boolNat ca.has_lowercase + boolNat ca.has_uppercase
    + boolNat ca.has_digits + boolNat ca.has_special : Nat) : ℚ)

/-- Entropy band of the claim: the single highest matching band. -/
def entropyPoints (e : ℚ) : ℚ :=
  if 60 ≤ e then 20 else if 40 ≤ e then 15
  else if 25 ≤ e then 10 else if 15 ≤ e then 5 else 0

/-- Security bonuses of the claim: 10 each for not-common, not-pwned, and
all basic requirements met. -/
def securityPoints (sc : SecurityChecks) : ℚ :=
  (if sc.is_common then 0 else 10) + (if sc.pwned_check then 0 else 10)
  + (if sc.meets_basic_requirements.all_met then 10 else 0)

/-- Penalties of the claim, each independently applied: 5 when any
repeated-character finding exists, 10 for sequential runs, 10 for keyboard
patterns, 15 for dictionary words. -/
def penaltyPoints (pa : PatternAnalysis) : ℚ :=
  (if pa.repeated_chars = [] then 0 else 5) + (if pa.sequential = [] then 0 else 10)
  + (if pa.keyboard_patterns = [] then 0 else 10) + (if pa.dictionary_words = [] then 0 else 15)

/-- C1: for every password, the strength score reported by the analysis is
the additive synthesis of the claim — the single highest length band, plus
6.25 per character-category boolean, plus the single highest entropy band,
plus 10 each for not-common, not-pwned and all-basic-requirements-met,
minus the stacking penalties of 5/10/10/15 for repeated characters,
sequential runs, keyboard patterns and dictionary words — rounded and then
clamped to [0, 100]. -/
theorem strength_score_additive (p : List Char) :
    (analyze_password p).strength_score =
      max 0 (min 100 (pyRoundQ
        (lengthPoints p.length + diversityPoints (_analyze_characters p)
          + entropyPoints (_calculate_entropy p) + securityPoints (_security_checks p)
          - penaltyPoints (_analyze_patterns p)))) := by
  simp only [analyze_password, _calculate_strength_score, lengthPoints, diversityPoints,
    entropyPoints, securityPoints, penaltyPoints]
  exact congrArg (fun z => max 0 (min 100 (pyRoundQ z))) (by ring)

/-- The claim's strength bands, written from the spec's words: inclusive
lower bounds, checked from highest to lowest. -/
def strength_level_spec (score : ℤ) : String :=
  if score ≥ 80 then "Very Strong"
  else if score ≥ 60 then "Strong"
  else if score ≥ 40 then "Moderate"
  else if score ≥ 20 then "Weak"
  else "Very Weak"

/-- C2: for every non-empty password, the reported strength score lies in
[0, 100] and the reported strength level is exactly the band of the score
(≥80 Very Strong; ≥60 Strong; ≥40 Moderate; ≥20 Weak; else Very Weak). -/
theorem score_in_range_and_level (p : List Char) (_h : p ≠ []) :
    0 ≤ (analyze_password p).strength_score ∧
    (analyze_password p).strength_score ≤ 100 ∧
    (analyze_password p).strength_level
      = strength_level_spec (analyze_password p).strength_score := by
  refine ⟨?_, ?_, ?_⟩
  · show (0 : ℤ) ≤ max 0 _
    exact le_max_left 0 _
  · show max (0 : ℤ) (min 100 _) ≤ 100
    exact max_le (by norm_num) (min_le_left _ _)
  · rfl

/-- Witness for C2 at the concrete password `"a"`. -/
theorem score_in_range_and_level_witness :
    ("a".toList ≠ ([] : List Char)) ∧
      (0 ≤ (analyze_password "a".toList).strength_score ∧
        (analyze_password "a".toList).strength_score ≤ 100 ∧
        (analyze_password "a".toList).strength_level
          = strength_level_spec (analyze_password "a".toList).strength_score) :=
  ⟨by decide, score_in_range_and_level "a".toList (by decide)⟩

/-- C6: the pwned check and the common-password check are the same boolean
function of the password — both are membership of the lower-cased password
in the fixed common-password list — and the evaluation pipeline reports
equal values for the two fields. -/
theorem pwned_equiv_common :
    (∀ p : List Char, _check_pwned_passwords p = common_passwords.contains (p.map pyLower)) ∧
    (∀ p : List Char, (_security_checks p).is_common
        = common_passwords.contains (p.map pyLower)) ∧
    (∀ p : List Char, (analyze_password p).security_checks.pwned_check
        = (analyze_password p).security_checks.is_common) :=
  ⟨fun _ => rfl, fun _ => rfl, fun _ => rfl⟩

/-- C8: the score computation reads neither the substitution-hint findings
nor the personal-info flag: two analysis inputs agreeing on every
score-relevant field (and possibly differing in those two) get identical
scores. -/
theorem score_ignores_hints (a₁ a₂ : Analysis)
    (hlen : a₁.length = a₂.length)
    (hca : a₁.character_analysis = a₂.character_analysis)
    (hent : a₁.entropy = a₂.entropy)
    (hcom : a₁.security_checks.is_common = a₂.security_checks.is_common)
    (hpwn : a₁.security_checks.pwned_check = a₂.security_checks.pwned_check)
    (hreq : a₁.security_checks.meets_basic_requirements
      = a₂.security_checks.meets_basic_requirements)
    (hrep : a₁.pattern_analysis.repeated_chars = a₂.pattern_analysis.repeated_chars)
    (hseq : a₁.pattern_analysis.sequential = a₂.pattern_analysis.sequential)
    (hkey : a₁.pattern_analysis.keyboard_patterns = a₂.pattern_analysis.keyboard_patterns)
    (hdic : a₁.pattern_analysis.dictionary_words = a₂.pattern_analysis.dictionary_words) :
    _calculate_strength_score a₁ = _calculate_strength_score a₂ := by
  simp only [_calculate_strength_score, hlen, hca, hent, hcom, hpwn, hreq,
    hrep, hseq, hkey, hdic]

/-- First witness analysis for C8: no substitution hints, no personal-info
flag. -/
def exampleAnalysisA : Analysis :=
  { password := "ab1!".toList
    length := 4
    strength_score := 0
    strength_level := "Very Weak"
    character_analysis := _analyze_characters "ab1!".toList
    pattern_analysis :=
      { repeated_chars := []
        sequential := []
        keyboard_patterns := []
        common_substitutions := []
        dictionary_words := [] }
    security_checks :=
      { is_common := false
        contains_personal_info := false
        pwned_check := false
        meets_basic_requirements := _meets_basic_requirements "ab1!".toList }
    entropy := 10
    crack_time := "Instant" }

/-- Second witness analysis for C8: same as the first except for the
substitution hints and the personal-info flag. -/
def exampleAnalysisB : Analysis :=
  { exampleAnalysisA with
    pattern_analysis :=
      { exampleAnalysisA.pattern_analysis with common_substitutions := [('1', 'i')] }
    security_checks :=
      { exampleAnalysisA.security_checks with contains_personal_info := true } }

/-- Witness for C8 at two concrete analyses differing exactly in the
substitution hints and the personal-info flag. -/
theorem score_ignores_hints_witness :
    (exampleAnalysisA.length = exampleAnalysisB.length ∧
      exampleAnalysisA.character_analysis = exampleAnalysisB.character_analysis ∧
      exampleAnalysisA.entropy = exampleAnalysisB.entropy ∧
      exampleAnalysisA.security_checks.is_common = exampleAnalysisB.security_checks.is_common ∧
      exampleAnalysisA.security_checks.pwned_check
        = exampleAnalysisB.security_checks.pwned_check ∧
      exampleAnalysisA.security_checks.meets_basic_requirements
        = exampleAnalysisB.security_checks.meets_basic_requirements ∧
      exampleAnalysisA.pattern_analysis.repeated_chars
        = exampleAnalysisB.pattern_analysis.repeated_chars ∧
      exampleAnalysisA.pattern_analysis.sequential
        = exampleAnalysisB.pattern_analysis.sequential ∧
      exampleAnalysisA.pattern_analysis.keyboard_patterns
        = exampleAnalysisB.pattern_analysis.keyboard_patterns ∧
      exampleAnalysisA.pattern_analysis.dictionary_words
        = exampleAnalysisB.pattern_analysis.dictionary_words ∧
      exampleAnalysisA.pattern_analysis.common_substitutions
        ≠ exampleAnalysisB.pattern_analysis.common_substitutions ∧
      exampleAnalysisA.security_checks.contains_personal_info
        ≠ exampleAnalysisB.security_checks.contains_personal_info) ∧
    _calculate_strength_score exampleAnalysisA = _calculate_strength_score exampleAnalysisB :=
  ⟨by decide,
    score_ignores_hints exampleAnalysisA exampleAnalysisB
      rfl rfl rfl rfl rfl rfl rfl rfl rfl rfl⟩

/-- C3 counterexample: on the one-character password `"٣"` (ARABIC-INDIC
DIGIT THREE, U+0663) the four reported counts sum to 2, not to the length 1:
Python's Unicode-aware `\d` counts the character as a digit while
`[^a-zA-Z0-9]` also counts it as special. -/
theorem char_counts_overcount :
    ¬ ((_analyze_characters [Char.ofNat 0x663]).lowercase
        + (_analyze_characters [Char.ofNat 0x663]).uppercase
        + (_analyze_characters [Char.ofNat 0x663]).digits
        + (_analyze_characters [Char.ofNat 0x663]).special
        = [Char.ofNat 0x663].length) := by decide

/-- C3 (amended): every character is classified into at least one category,
and the only double counting is that a non-ASCII decimal digit is counted
both as digit and as special; hence the four counts sum to the length plus
the number of non-ASCII decimal digits, and any character that is not a
non-ASCII decimal digit lies in exactly one category. -/
theorem char_counts_sum :
    (∀ p : List Char,
      (_analyze_characters p).lowercase + (_analyze_characters p).uppercase
        + (_analyze_characters p).digits + (_analyze_characters p).special
        = p.length + p.countP isNonAsciiDigitChar) ∧
    (∀ c : Char, isNonAsciiDigitChar c = false →
      boolNat (isLowerChar c) + boolNat (isUpperChar c) + boolNat (isDigitChar c)
        + boolNat (isSpecialChar c) = 1) := by
  refine ⟨?_, ?_⟩
  · intro p
    induction p with
    | nil => rfl
    | cons c rest ih =>
        have h := char_class_count c
        simp only [_analyze_characters, List.countP_cons, List.length_cons] at ih ⊢
        cases h1 : isLowerChar c <;> cases h2 : isUpperChar c <;> cases h3 : isDigitChar c <;>
          cases h4 : isSpecialChar c <;> cases h5 : isNonAsciiDigitChar c <;>
          simp_all [boolNat] <;> omega
  · intro c h
    have hc := char_class_count c
    rw [h] at hc
    simpa [boolNat] using hc

/-- C4: the reported entropy is exactly the code's formula — 0 when the
charset is empty, otherwise `length × log2(charsetSize)` rounded to two
decimal places, the charset collecting a fixed contribution per present
category — and the charset is empty exactly for the empty password. -/
theorem entropy_formula :
    (∀ p : List Char, (analyze_password p).entropy = _calculate_entropy p) ∧
    (∀ p : List Char, _calculate_entropy p =
      if charset_size p = 0 then 0
      else round2 ((p.length : ℝ) * Real.logb 2 (charset_size p))) ∧
    (∀ p : List Char,
      charset_size p = (if p.any isLowerChar then 26 else 0)
        + (if p.any isUpperChar then 26 else 0) + (if p.any isDigitChar then 10 else 0)
        + (if p.any isSpecialChar then 32 else 0)) ∧
    (∀ p : List Char, charset_size p = 0 ↔ p = []) := by
  refine ⟨fun _ => rfl, fun _ => rfl, fun _ => rfl, fun p => ?_⟩
  constructor
  · intro h
    cases p with
    | nil => rfl
    | cons c rest =>
        exfalso
        have hl : isLowerChar c = false := by
          by_contra hx
          rw [Bool.not_eq_false] at hx
          simp [charset_size, hx] at h
        have hu : isUpperChar c = false := by
          by_contra hx
          rw [Bool.not_eq_false] at hx
          simp [charset_size, hx] at h
        have hd : isDigitChar c = false := by
          by_contra hx
          rw [Bool.not_eq_false] at hx
          simp [charset_size, hx] at h
        have hsp : isSpecialChar c = false := by
          by_contra hx
          rw [Bool.not_eq_false] at hx
          simp [charset_size, hx] at h
        have hd0 : isAsciiDigitChar c = false := by
          cases hxx : isAsciiDigitChar c
          · rfl
          · exact absurd hd (by simp [isDigitChar, hxx])
        simp [isSpecialChar, hl, hu, hd0] at hsp
  · rintro rfl
    rfl

/-- C5: the reported crack time is the formatted value of
`2^entropy / (2·10^9)` seconds, the formatter follows the fixed breakpoints
(with one decimal place for each numeric value and a year of exactly
31,536,000 seconds), and the empty password yields "Instant". -/
theorem crack_time_formula :
    (∀ p : List Char, (analyze_password p).crack_time
        = _format_time ((2 : ℝ) ^ ((_calculate_entropy p : ℚ) : ℝ) / (2 * 10 ^ 9))) ∧
    (∀ s : ℝ, s < 1 → _format_time s = "Instant") ∧
    (∀ s : ℝ, 1 ≤ s → s < 60 → _format_time s = formatFixed1 s ++ " seconds") ∧
    (∀ s : ℝ, 60 ≤ s → s < 3600 → _format_time s = formatFixed1 (s / 60) ++ " minutes") ∧
    (∀ s : ℝ, 3600 ≤ s → s < 86400 → _format_time s = formatFixed1 (s / 3600) ++ " hours") ∧
    (∀ s : ℝ, 86400 ≤ s → s < 31536000 →
      _format_time s = formatFixed1 (s / 86400) ++ " days") ∧
    (∀ s : ℝ, 31536000 ≤ s → _format_time s = formatFixed1 (s / 31536000) ++ " years") ∧
    (analyze_password ([] : List Char)).crack_time = "Instant" := by
  refine ⟨fun _ => rfl, ?_, ?_, ?_, ?_, ?_, ?_, ?_⟩
  · intro s h
    simp only [_format_time]
    rw [if_pos h]
  · intro s h1 h2
    simp only [_format_time]
    rw [if_neg (by linarith), if_pos h2]
  · intro s h1 h2
    simp only [_format_time]
    rw [if_neg (by linarith), if_neg (by linarith), if_pos h2]
  · intro s h1 h2
    simp only [_format_time]
    rw [if_neg (by linarith), if_neg (by linarith), if_neg (by linarith), if_pos h2]
  · intro s h1 h2
    simp only [_format_time]
    rw [if_neg (by linarith), if_neg (by linarith), if_neg (by linarith),
      if_neg (by linarith), if_pos h2]
  · intro s h1
    simp only [_format_time]
    rw [if_neg (by linarith), if_neg (by linarith), if_neg (by linarith),
      if_neg (by linarith), if_neg (by linarith)]
  · show _format_time ((2 : ℝ) ^ ((_calculate_entropy ([] : List Char) : ℚ) : ℝ)
        / (2 * 10 ^ 9)) = "Instant"
    have h0 : _calculate_entropy ([] : List Char) = 0 := by
      simp [_calculate_entropy, charset_size]
    rw [h0]
    have h1 : (((0 : ℚ) : ℝ)) = (0 : ℝ) := by norm_num
    rw [h1, Real.rpow_zero]
    simp only [_format_time]
    rw [if_pos (by norm_num)]

/-- Windows of three consecutive characters are reported by
`_find_sequential_patterns` exactly when their codes strictly ascend with
step one. -/
theorem seq_window_iff (p s : List Char) :
    s ∈ _find_sequential_patterns p ↔
      ∃ i a b c, i + 2 < p.length ∧ (p.drop i).take 3 = [a, b, c]
        ∧ b.toNat = a.toNat + 1 ∧ c.toNat = a.toNat + 2 ∧ s = [a, b, c] := by
  simp only [_find_sequential_patterns, List.mem_filterMap, List.mem_range]
  constructor
  · rintro ⟨i, hi, hf⟩
    rcases hdrop : p.drop i with _ | ⟨a, _ | ⟨b, _ | ⟨c, t⟩⟩⟩ <;> rw [hdrop] at hf
    · simp at hf
    · simp at hf
    · simp at hf
    · dsimp only at hf
      by_cases hcond : b.toNat = a.toNat + 1 ∧ c.toNat = a.toNat + 2
      · rw [if_pos hcond] at hf
        exact ⟨i, a, b, c, by omega, by rw [hdrop]; rfl, hcond.1, hcond.2,
          (Option.some.inj hf).symm⟩
      · rw [if_neg hcond] at hf
        exact Option.noConfusion hf
  · rintro ⟨i, a, b, c, hi, htake, hb, hc, rfl⟩
    refine ⟨i, by omega, ?_⟩
    have hdrop : p.drop i = a :: b :: c :: (p.drop i).drop 3 := by
      conv_lhs => rw [← List.take_append_drop 3 (p.drop i)]
      rw [htake]
      rfl
    rw [hdrop]
    simp [hb, hc]

/-- C7: a three-character window is recorded as a sequential finding iff its
codes form a strictly ascending run of step one; overlapping windows are
checked independently; evaluating `"abcXYZ123"` records `"abc"` and `"123"`
and no descending run such as `"cba"`; every recorded triple ascends, so a
descending run is never recorded. -/
theorem sequential_runs :
    (∀ p s : List Char, s ∈ _find_sequential_patterns p ↔
      ∃ i a b c, i + 2 < p.length ∧ (p.drop i).take 3 = [a, b, c]
        ∧ b.toNat = a.toNat + 1 ∧ c.toNat = a.toNat + 2 ∧ s = [a, b, c]) ∧
    "abc".toList ∈ _find_sequential_patterns "abcXYZ123".toList ∧
    "123".toList ∈ _find_sequential_patterns "abcXYZ123".toList ∧
    "cba".toList ∉ _find_sequential_patterns "abcXYZ123".toList ∧
    (∀ p : List Char, ∀ a b c : Char, [a, b, c] ∈ _find_sequential_patterns p →
      b.toNat = a.toNat + 1 ∧ c.toNat = a.toNat + 2) := by
  refine ⟨seq_window_iff, by decide, by decide, by decide, ?_⟩
  intro p a b c hmem
  rcases (seq_window_iff p [a, b, c]).mp hmem with ⟨i, a', b', c', _, _, hb, hc, heq⟩
  obtain ⟨rfl, rfl, rfl⟩ : a = a' ∧ b = b' ∧ c = c' := by simpa using heq
  exact ⟨hb, hc⟩

/-- The union alphabet `chars` of the page script's generator. -/
def genChars : List Char :=
  "ABCDEFGHIJKLMNOPQRSTUVWXYZabcdefghijklmnopqrstuvwxyz0123456789!@#$%^&*".toList

/-- The uppercase pool of the generator. -/
def genUpper : List Char := "ABCDEFGHIJKLMNOPQRSTUVWXYZ".toList

/-- The lowercase pool of the generator. -/
def genLower : List Char := "abcdefghijklmnopqrstuvwxyz".toList

/-- The digit pool of the generator. -/
def genDigits : List Char := "0123456789".toList

/-- The symbol pool of the generator (the safe punctuation set). -/
def genSymbols : List Char := "!@#$%^&*".toList

/-- The client-side `generatePassword` of the page script — the repository's
only generator.  It takes no length argument: one character from each of the
four required pools, then twelve more from the union alphabet (the fixed
loop `for (let i = 4; i < 16; i++)`), then a shuffle.  The random draws
`Math.floor(Math.random() * n)` are modelled by the index list `r` (the k-th
draw is `r.getD k 0`) and the `sort`-comparator shuffle by an arbitrary
rearrangement function. -/
def generatePassword (r : List Nat) (shuffle : List Char → List Char) : List Char :=
  shuffle ([genUpper.getD (r.getD 0 0) ' ', genLower.getD (r.getD 1 0) ' ',
    genDigits.getD (r.getD 2 0) ' ', genSymbols.getD (r.getD 3 0) ' ']
    ++ (List.range 12).map (fun k => genChars.getD (r.getD (4 + k) 0) ' '))

/-- C9: whatever randomness is drawn, the generator returns exactly 16
characters — in particular never the 20 a caller may have requested, since
the requested length is ignored — and, when the draws are in range and the
shuffle permutes its input, the result contains at least one uppercase
letter, one lowercase letter, one digit and one safe-set symbol. -/
theorem generate_fixed_sixteen (r : List Nat) (shuffle : List Char → List Char)
    (hs : ∀ l, (shuffle l).Perm l)
    (h1 : r.getD 0 0 < 26) (h2 : r.getD 1 0 < 26) (h3 : r.getD 2 0 < 10)
    (h4 : r.getD 3 0 < 8) :
    (generatePassword r shuffle).length = 16 ∧
    (generatePassword r shuffle).length ≠ 20 ∧
    (∃ c ∈ generatePassword r shuffle, isUpperChar c) ∧
    (∃ c ∈ generatePassword r shuffle, isLowerChar c) ∧
    (∃ c ∈ generatePassword r shuffle, isDigitChar c) ∧
    (∃ c ∈ generatePassword r shuffle, c ∈ genSymbols) := by
  have hup : ∀ i, i < 26 → isUpperChar (genUpper.getD i ' ') = true := by decide
  have hlo : ∀ i, i < 26 → isLowerChar (genLower.getD i ' ') = true := by decide
  have hdi : ∀ i, i < 10 → isDigitChar (genDigits.getD i ' ') = true := by decide
  have hsym : ∀ i, i < 8 → genSymbols.getD i ' ' ∈ genSymbols := by decide
  unfold generatePassword
  have hlen : ∀ l : List Char, (shuffle l).length = l.length := fun l => (hs l).length_eq
  refine ⟨?_, ?_, ?_, ?_, ?_, ?_⟩
  · rw [hlen]
    simp
  · rw [hlen]
    simp
  · exact ⟨genUpper.getD (r.getD 0 0) ' ', (hs _).mem_iff.mpr (by simp), hup _ h1⟩
  · exact ⟨genLower.getD (r.getD 1 0) ' ', (hs _).mem_iff.mpr (by simp), hlo _ h2⟩
  · exact ⟨genDigits.getD (r.getD 2 0) ' ', (hs _).mem_iff.mpr (by simp), hdi _ h3⟩
  · exact ⟨genSymbols.getD (r.getD 3 0) ' ', (hs _).mem_iff.mpr (by simp), hsym _ h4⟩

/-- Witness for C9 at all-zero draws and the identity shuffle. -/
theorem generate_fixed_sixteen_witness :
    ((∀ l : List Char, (id l).Perm l) ∧
      (List.replicate 16 0).getD 0 0 < 26 ∧ (List.replicate 16 0).getD 1 0 < 26 ∧
      (List.replicate 16 0).getD 2 0 < 10 ∧ (List.replicate 16 0).getD 3 0 < 8) ∧
    ((generatePassword (List.replicate 16 0) id).length = 16 ∧
      (generatePassword (List.replicate 16 0) id).length ≠ 20 ∧
      (∃ c ∈ generatePassword (List.replicate 16 0) id, isUpperChar c) ∧
      (∃ c ∈ generatePassword (List.replicate 16 0) id, isLowerChar c) ∧
      (∃ c ∈ generatePassword (List.replicate 16 0) id, isDigitChar c) ∧
      (∃ c ∈ generatePassword (List.replicate 16 0) id, c ∈ genSymbols)) :=
  ⟨⟨fun l => List.Perm.refl l, by decide, by decide, by decide, by decide⟩,
    generate_fixed_sixteen (List.replicate 16 0) id (fun l => List.Perm.refl l)
      (by decide) (by decide) (by decide) (by decide)⟩

/-- C10: the empty password is scored 20 and labelled "Weak": every length,
diversity, entropy and penalty term is 0, but the not-common and not-pwned
bonuses of 10 each still apply because the empty string is not in the
common-password list. -/
theorem empty_password_report :
    (analyze_password ([] : List Char)).strength_score = 20 ∧
    (analyze_password ([] : List Char)).strength_level = "Weak" ∧
    (analyze_password ([] : List Char)).security_checks.is_common = false ∧
    (analyze_password ([] : List Char)).security_checks.pwned_check = false := by
  have hent : _calculate_entropy ([] : List Char) = 0 := by
    simp [_calculate_entropy, charset_size]
  have hcommon : common_passwords.contains ((([] : List Char)).map pyLower) = false := by
    decide
  have h20 : pyRoundQ 20 = 20 := by
    unfold pyRoundQ
    rw [show (20 : ℚ) = ((20 : ℤ) : ℚ) by norm_num, Int.floor_intCast]
    norm_num
  have hrep : _find_repeated_chars ([] : List Char) = [] := rfl
  have hseq : _find_sequential_patterns ([] : List Char) = [] := rfl
  have hkey : _find_keyboard_patterns ([] : List Char) = [] := by decide
  have hdic : _find_dictionary_words ([] : List Char) = [] := by decide
  have hscore : (analyze_password ([] : List Char)).strength_score = 20 := by
    simp only [analyze_password, _calculate_strength_score, _analyze_patterns,
      _analyze_characters, _security_checks, _meets_basic_requirements,
      _check_pwned_passwords, hent, hcommon, boolNat, hrep, hseq, hkey, hdic]
    norm_num [h20]
  have hlev : (analyze_password ([] : List Char)).strength_level
      = _get_strength_level (analyze_password ([] : List Char)).strength_score := rfl
  refine ⟨hscore, ?_, hcommon, hcommon⟩
  rw [hlev, hscore]
  decide

end PasswordAnalyzer
